import Mathlib

/-!
Verification of the voxblox ROS node (`voxblox_ros/src/voxblox_node.cc`):
the TSDF store data model, the two extraction traversals
(`publishAllUpdatedTsdfVoxels`, `publishTsdfSurfacePoints`) and the
observation-handling control flow (`insertPointcloudWithTf`,
`lookupTransform`), shallowly embedded in Lean.

Scalars that the C++ code stores in `float` (distances, weights, voxel
size, coordinates) are modelled as rationals `ℚ`; color channels as `Nat`.
The `TsdfMap` / `TsdfBlock` accessors used by the node are declared in
headers not part of this tree, so they are modelled from the spec where
noted.
-/

namespace Voxblox

/-- A 4-channel color, 0–255 per channel (`voxblox::Color`). -/
structure Color where
  r : Nat
  g : Nat
  b : Nat
  a : Nat
deriving DecidableEq, Repr

/-- One TSDF voxel: signed distance, accumulated weight, color
(`voxblox::TsdfVoxel`). -/
structure TsdfVoxel where
  distance : ℚ
  weight : ℚ
  color : Color
deriving DecidableEq, Repr

/-- Modelled from the spec: `TsdfBlock` (declared in
`voxblox/core/tsdf_map.h`, not in this tree) is a fixed-size cube of
voxels with its own integer grid coordinate; voxels are looked up by a
local 3-D voxel index. -/
structure TsdfBlock where
  block_index : Int × Int × Int
  voxels : Nat × Nat × Nat → TsdfVoxel

/-- `block.getTsdfVoxelByVoxelIndex(voxel_index)`. -/
def TsdfBlock.getTsdfVoxelByVoxelIndex (b : TsdfBlock) (i : Nat × Nat × Nat) :
    TsdfVoxel :=
  b.voxels i

/-- Modelled from the spec: the `TsdfMap` store (`voxblox/core/tsdf_map.h`,
not in this tree) holds the two store-wide constants and the allocated
blocks; the list order is the block-enumeration order that
`getAllAllocatedBlocks` reports. -/
structure TsdfMap where
  tsdf_voxel_size : ℚ
  tsdf_voxels_per_side : Nat
  blocks : List TsdfBlock

/-- `tsdf_map_->getTsdfVoxelSize()`. -/
def TsdfMap.getTsdfVoxelSize (m : TsdfMap) : ℚ :=
  m.tsdf_voxel_size

/-- `tsdf_map_->getTsdfVoxelsPerSide()`. -/
def TsdfMap.getTsdfVoxelsPerSide (m : TsdfMap) : Nat :=
  m.tsdf_voxels_per_side

/-- Modelled from the spec: voxels-per-block is the derived constant
`voxels_per_side^3`. -/
def TsdfMap.getTsdfVoxelsPerBlock (m : TsdfMap) : Nat :=
  m.tsdf_voxels_per_side ^ 3

/-- `tsdf_map_->getNumberOfAllocatedBlocks()`. -/
def TsdfMap.getNumberOfAllocatedBlocks (m : TsdfMap) : Nat :=
  m.blocks.length

/-- `tsdf_map_->getAllAllocatedBlocks(&blocks)`: snapshot of the allocated
blocks in enumeration order. -/
def TsdfMap.getAllAllocatedBlocks (m : TsdfMap) : List TsdfBlock :=
  m.blocks

/-- Modelled from the spec: the world origin of a block is
`block_coord * (voxels_per_side * voxel_size)` (the spec fixes
`block coordinate = floor(point / (voxel_size * voxels_per_side))`). -/
def blockOrigin (m : TsdfMap) (b : TsdfBlock) : ℚ × ℚ × ℚ :=
  (b.block_index.1 * (m.tsdf_voxels_per_side * m.tsdf_voxel_size),
   b.block_index.2.1 * (m.tsdf_voxels_per_side * m.tsdf_voxel_size),
   b.block_index.2.2 * (m.tsdf_voxels_per_side * m.tsdf_voxel_size))

/-- Modelled from the spec:
`block.getCoordinatesOfTsdfVoxelByVoxelIndex(voxel_index)` reconstructs
`world_coord = block_origin + voxel_index * voxel_size`. -/
def TsdfBlock.getCoordinatesOfTsdfVoxelByVoxelIndex (b : TsdfBlock)
    (m : TsdfMap) (i : Nat × Nat × Nat) : ℚ × ℚ × ℚ :=
  ((blockOrigin m b).1 + i.1 * m.tsdf_voxel_size,
   (blockOrigin m b).2.1 + i.2.1 * m.tsdf_voxel_size,
   (blockOrigin m b).2.2 + i.2.2 * m.tsdf_voxel_size)

/-- `pcl::PointXYZI`: position plus intensity payload. -/
structure PointXYZI where
  x : ℚ
  y : ℚ
  z : ℚ
  intensity : ℚ
deriving DecidableEq, Repr

/-- `pcl::PointXYZRGB`: position plus color channels. -/
structure PointXYZRGB where
  x : ℚ
  y : ℚ
  z : ℚ
  r : Nat
  g : Nat
  b : Nat
deriving DecidableEq, Repr

/-- The triple-nested voxel loop of both traversals: `x` outermost, then
`y`, then `z`, each running from `0` to `vps - 1`. -/
def voxelIndices (vps : Nat) : List (Nat × Nat × Nat) :=
  (List.range vps).flatMap fun x =>
    (List.range vps).flatMap fun y =>
      (List.range vps).map fun z => (x, y, z)

/-- The `pcl::PointXYZI` that `publishAllUpdatedTsdfVoxels` pushes for one
voxel: the voxel's reconstructed coordinate and `intensity = distance`. -/
def densePointOf (m : TsdfMap) (block : TsdfBlock) (voxel_index : Nat × Nat × Nat) :
    PointXYZI :=
  let voxel := block.getTsdfVoxelByVoxelIndex voxel_index
  let coord := block.getCoordinatesOfTsdfVoxelByVoxelIndex m voxel_index
  { x := coord.1, y := coord.2.1, z := coord.2.2, intensity := voxel.distance }

/-- Loop body of `publishAllUpdatedTsdfVoxels` for one voxel: if
`weight > 0.0`, push the voxel's point. -/
def denseEmit (m : TsdfMap) (block : TsdfBlock) (voxel_index : Nat × Nat × Nat) :
    List PointXYZI :=
  let voxel := block.getTsdfVoxelByVoxelIndex voxel_index
  if voxel.weight > 0 then
    [densePointOf m block voxel_index]
  else
    []

/-- `VoxbloxNode::publishAllUpdatedTsdfVoxels`, the dense-distance
traversal: iterate all allocated blocks, all voxels per block, pushing the
emitted points onto one accumulating point cloud. -/
def publishAllUpdatedTsdfVoxels (m : TsdfMap) : List PointXYZI :=
  m.getAllAllocatedBlocks.foldl
    (fun pointcloud block =>
      (voxelIndices m.getTsdfVoxelsPerSide).foldl
        (fun pointcloud voxel_index => pointcloud ++ denseEmit m block voxel_index)
        pointcloud)
    []

/-- `surface_distance_thresh = tsdf_map_->getTsdfVoxelSize() * 0.75`. -/
def surfaceDistanceThresh (m : TsdfMap) : ℚ :=
  m.getTsdfVoxelSize * (3 / 4)

/-- The `pcl::PointXYZRGB` that `publishTsdfSurfacePoints` pushes for one
voxel: the voxel's reconstructed coordinate and its `r`, `g`, `b` color
channels. -/
def surfacePointOf (m : TsdfMap) (block : TsdfBlock) (voxel_index : Nat × Nat × Nat) :
    PointXYZRGB :=
  let voxel := block.getTsdfVoxelByVoxelIndex voxel_index
  let coord := block.getCoordinatesOfTsdfVoxelByVoxelIndex m voxel_index
  { x := coord.1, y := coord.2.1, z := coord.2.2,
    r := voxel.color.r, g := voxel.color.g, b := voxel.color.b }

/-- Loop body of `publishTsdfSurfacePoints` for one voxel: if
`|distance| < surface_distance_thresh && weight > 0`, push the voxel's
surface point. -/
def surfaceEmit (m : TsdfMap) (block : TsdfBlock) (voxel_index : Nat × Nat × Nat) :
    List PointXYZRGB :=
  let voxel := block.getTsdfVoxelByVoxelIndex voxel_index
  if |voxel.distance| < surfaceDistanceThresh m ∧ voxel.weight > 0 then
    [surfacePointOf m block voxel_index]
  else
    []

/-- `VoxbloxNode::publishTsdfSurfacePoints`, the surface traversal. -/
def publishTsdfSurfacePoints (m : TsdfMap) : List PointXYZRGB :=
  m.getAllAllocatedBlocks.foldl
    (fun pointcloud block =>
      (voxelIndices m.getTsdfVoxelsPerSide).foldl
        (fun pointcloud voxel_index => pointcloud ++ surfaceEmit m block voxel_index)
        pointcloud)
    []

/-- The freshly constructed store: `tsdf_voxel_size = 0.02`,
`tsdf_voxels_per_side = 16`, no blocks allocated (constructor,
`voxblox_node.cc` lines 36–39). -/
def initialMap : TsdfMap :=
  { tsdf_voxel_size := 1 / 50, tsdf_voxels_per_side := 16, blocks := [] }

/-- A concrete one-block store used to instantiate theorems (spec
Scenario B): every voxel observed with `weight = 1`,
`distance = 0.01`, color `(255,0,0,255)`. -/
def scenarioBBlock : TsdfBlock :=
  { block_index := (0, 0, 0),
    voxels := fun _ => { distance := 1 / 100, weight := 1, color := ⟨255, 0, 0, 255⟩ } }

/-- Scenario B store: one block, `voxel_size = 0.02`, one voxel per side. -/
def scenarioBMap : TsdfMap :=
  { tsdf_voxel_size := 1 / 50, tsdf_voxels_per_side := 1, blocks := [scenarioBBlock] }

/-- Coordinates of the points of a dense output, in output order. -/
def denseCoords (m : TsdfMap) : List (ℚ × ℚ × ℚ) :=
  (publishAllUpdatedTsdfVoxels m).map fun p => (p.x, p.y, p.z)

/-- Coordinates of the points of a surface output, in output order. -/
def surfaceCoords (m : TsdfMap) : List (ℚ × ℚ × ℚ) :=
  (publishTsdfSurfacePoints m).map fun p => (p.x, p.y, p.z)

/-- A rigid sensor-to-world transform (`voxblox::Transformation`,
minkindr): rotation plus translation. Its numeric content is opaque to the
node logic modelled here. -/
structure Transformation where
  rotation : ℚ × ℚ × ℚ × ℚ
  translation : ℚ × ℚ × ℚ
deriving DecidableEq, Repr

/-- A scalar of the incoming PCL cloud, which unlike the store's scalars
may be NaN. -/
inductive RawScalar where
  | nan
  | val (q : ℚ)
deriving DecidableEq, Repr

/-- Whether the raw scalar is NaN. -/
def RawScalar.isNaN : RawScalar → Bool
  | .nan => true
  | .val _ => false

/-- Numeric value of a raw scalar (NaN reads as an arbitrary value; the
node only converts scalars that survived the NaN filter). -/
def RawScalar.toRat : RawScalar → ℚ
  | .nan => 0
  | .val q => q

/-- One point of the incoming `pcl::PointCloud<pcl::PointXYZRGB>`. -/
structure PclPointXYZRGB where
  x : RawScalar
  y : RawScalar
  z : RawScalar
  r : Nat
  g : Nat
  b : Nat
  a : Nat
deriving DecidableEq, Repr

/-- One `sensor_msgs::PointField` of the incoming message: its name and
datatype code. -/
structure PointField where
  name : String
  datatype : Nat
deriving DecidableEq, Repr

/-- `sensor_msgs::PointField::FLOAT32`. -/
def pointFieldFLOAT32 : Nat := 7

/-- The incoming `sensor_msgs::PointCloud2` observation: source frame,
field descriptors, and the decoded point data. -/
structure CloudMsg where
  frame_id : String
  fields : List PointField
  points : List PclPointXYZRGB
deriving DecidableEq, Repr

/-- An externally visible action of the node: one integrator call or one
publish on `sdf_pointcloud_pub_`. -/
inductive Event where
  | integrateCall (T_G_C : Transformation) (points_C : List (ℚ × ℚ × ℚ))
      (colors : List Color)
  | publishDense (frame_id : String) (pointcloud : List PointXYZI)
  | publishSurface (frame_id : String) (pointcloud : List PointXYZRGB)
deriving DecidableEq, Repr

/-- The node's state: the world frame name and the owned TSDF store. -/
structure NodeState where
  world_frame : String
  tsdf_map : TsdfMap

/-- `VoxbloxNode::lookupTransform`: if no transform exists at the
message's timestamp, fall back to the latest transform (`ros::Time(0)`);
a lookup exception means failure (`return false`, here `none`). The two
TF oracles are external collaborators, passed as arguments. -/
def lookupTransform (canTransformAtStamp : Bool)
    (lookupAtStamp lookupLatest : Option Transformation) : Option Transformation :=
  if canTransformAtStamp then lookupAtStamp else lookupLatest

/-- The rgb-field hack of `insertPointcloudWithTf` (lines 91–96): every
field named `"rgb"` has its datatype overwritten to `FLOAT32` in place. -/
def fixRgbFieldDatatypes (fields : List PointField) : List PointField :=
  fields.map fun f =>
    if f.name = "rgb" then { f with datatype := pointFieldFLOAT32 } else f

/-- `pcl::removeNaNFromPointCloud`: drop every point with a NaN
coordinate. -/
def removeNaNFromPointCloud (cloud : List PclPointXYZRGB) : List PclPointXYZRGB :=
  cloud.filter fun p => !(p.x.isNaN || p.y.isNaN || p.z.isNaN)

/-- The single loop of `insertPointcloudWithTf` (lines 110–117) that
pushes each filtered point's coordinates onto `points_C` and its color
onto `colors`. -/
def buildPointsAndColors (cloud : List PclPointXYZRGB) :
    List (ℚ × ℚ × ℚ) × List Color :=
  cloud.foldl
    (fun acc p =>
      (acc.1 ++ [(p.x.toRat, p.y.toRat, p.z.toRat)],
       acc.2 ++ [{ r := p.r, g := p.g, b := p.b, a := p.a }]))
    ([], [])

/-- `VoxbloxNode::insertPointcloudWithTf`: on a successful pose lookup,
patch the rgb fields, drop NaN points, build the point and color
sequences, run one integration, then one surface extraction-and-publish
(the dense publish on line 123 is commented out). On a failed lookup the
observation is dropped. Returns the new node state, the (possibly
mutated) input message, and the emitted events in order. The integrator
is an external collaborator, passed as an argument. -/
def insertPointcloudWithTf
    (integratePointCloud :
      TsdfMap → Transformation → List (ℚ × ℚ × ℚ) → List Color → TsdfMap)
    (lookup_result : Option Transformation) (st : NodeState)
    (pointcloud_msg : CloudMsg) : NodeState × CloudMsg × List Event :=
  match lookup_result with
  | none => (st, pointcloud_msg, [])
  | some T_G_C =>
    let msg' : CloudMsg :=
      { pointcloud_msg with fields := fixRgbFieldDatatypes pointcloud_msg.fields }
    let pointcloud_pcl := removeNaNFromPointCloud msg'.points
    let pc := buildPointsAndColors pointcloud_pcl
    let map' := integratePointCloud st.tsdf_map T_G_C pc.1 pc.2
    ({ st with tsdf_map := map' }, msg',
     [Event.integrateCall T_G_C pc.1 pc.2,
      Event.publishSurface st.world_frame (publishTsdfSurfacePoints map')])

/-- `publishAllUpdatedTsdfVoxels` as a node step: reads the store, emits
one dense publish tagged with the world frame. -/
def publishAllUpdatedTsdfVoxelsStep (st : NodeState) : NodeState × Event :=
  (st, Event.publishDense st.world_frame (publishAllUpdatedTsdfVoxels st.tsdf_map))

/-- `publishTsdfSurfacePoints` as a node step: reads the store, emits one
surface publish tagged with the world frame. -/
def publishTsdfSurfacePointsStep (st : NodeState) : NodeState × Event :=
  (st, Event.publishSurface st.world_frame (publishTsdfSurfacePoints st.tsdf_map))

/-- Node state right after the constructor built the store
(`world_frame_ = "world"`, lines 23 and 36–39). -/
def constructorState : NodeState :=
  { world_frame := "world", tsdf_map := initialMap }

/-- The constructor's own publishes (line 46): exactly one surface
extraction-and-publish over the fresh store. -/
def constructorEvents : List Event :=
  [(publishTsdfSurfacePointsStep constructorState).2]

/-- A concrete transform used to instantiate theorems. -/
def identityTransformation : Transformation :=
  { rotation := (1, 0, 0, 0), translation := (0, 0, 0) }

/-- A concrete incoming observation used to instantiate theorems: one
clean point, one `"rgb"` field with a non-`FLOAT32` datatype. -/
def sampleMsg : CloudMsg :=
  { frame_id := "camera",
    fields := [{ name := "rgb", datatype := 6 }],
    points := [{ x := .val 1, y := .val 2, z := .val 3,
                 r := 9, g := 8, b := 7, a := 255 }] }

/-- A concrete integrator collaborator that leaves the store unchanged,
used to instantiate theorems. -/
def trivialIntegrate :
    TsdfMap → Transformation → List (ℚ × ℚ × ℚ) → List Color → TsdfMap :=
  fun m _ _ _ => m

section Lemmas

/-- An accumulating `push_back` loop is an `append` of the per-element
emissions. -/
theorem foldl_append_eq {α β : Type} (g : α → List β) (l : List α) (acc : List β) :
    l.foldl (fun pc a => pc ++ g a) acc = acc ++ l.flatMap g := by
  induction l generalizing acc with
  | nil => simp
  | cons a l ih => simp [ih, List.append_assoc]

/-- The dense traversal, loop-free form: blocks in enumeration order,
voxel indices in loop order. -/
theorem publishAllUpdatedTsdfVoxels_eq (m : TsdfMap) :
    publishAllUpdatedTsdfVoxels m =
      m.blocks.flatMap fun block =>
        (voxelIndices m.tsdf_voxels_per_side).flatMap (denseEmit m block) := by
  unfold publishAllUpdatedTsdfVoxels
  have h : (fun (pointcloud : List PointXYZI) (block : TsdfBlock) =>
      (voxelIndices m.getTsdfVoxelsPerSide).foldl
        (fun pointcloud voxel_index => pointcloud ++ denseEmit m block voxel_index)
        pointcloud) =
      fun pointcloud block =>
        pointcloud ++ (voxelIndices m.getTsdfVoxelsPerSide).flatMap (denseEmit m block) := by
    funext pointcloud block
    exact foldl_append_eq _ _ _
  rw [h, foldl_append_eq]
  rfl

/-- The surface traversal, loop-free form. -/
theorem publishTsdfSurfacePoints_eq (m : TsdfMap) :
    publishTsdfSurfacePoints m =
      m.blocks.flatMap fun block =>
        (voxelIndices m.tsdf_voxels_per_side).flatMap (surfaceEmit m block) := by
  unfold publishTsdfSurfacePoints
  have h : (fun (pointcloud : List PointXYZRGB) (block : TsdfBlock) =>
      (voxelIndices m.getTsdfVoxelsPerSide).foldl
        (fun pointcloud voxel_index => pointcloud ++ surfaceEmit m block voxel_index)
        pointcloud) =
      fun pointcloud block =>
        pointcloud ++ (voxelIndices m.getTsdfVoxelsPerSide).flatMap (surfaceEmit m block) := by
    funext pointcloud block
    exact foldl_append_eq _ _ _
  rw [h, foldl_append_eq]
  rfl

/-- Which voxel indices the triple loop visits. -/
theorem mem_voxelIndices {vps : Nat} {i : Nat × Nat × Nat} :
    i ∈ voxelIndices vps ↔ i.1 < vps ∧ i.2.1 < vps ∧ i.2.2 < vps := by
  obtain ⟨x, y, z⟩ := i
  simp [voxelIndices, List.mem_flatMap, List.mem_map, List.mem_range]
  aesop

/-- Membership in the dense output, characterized per voxel. -/
theorem mem_publishAllUpdatedTsdfVoxels {m : TsdfMap} {p : PointXYZI} :
    p ∈ publishAllUpdatedTsdfVoxels m ↔
      ∃ block ∈ m.blocks, ∃ i ∈ voxelIndices m.tsdf_voxels_per_side,
        0 < (block.getTsdfVoxelByVoxelIndex i).weight ∧ p = densePointOf m block i := by
  rw [publishAllUpdatedTsdfVoxels_eq]
  simp only [List.mem_flatMap, denseEmit]
  constructor
  · rintro ⟨block, hb, i, hi, hp⟩
    refine ⟨block, hb, i, hi, ?_⟩
    by_cases hw : (block.getTsdfVoxelByVoxelIndex i).weight > 0
    · simp [hw] at hp
      exact ⟨hw, hp⟩
    · simp [hw] at hp
  · rintro ⟨block, hb, i, hi, hw, hp⟩
    exact ⟨block, hb, i, hi, by simp [hw, hp]⟩

/-- Membership in the surface output, characterized per voxel. -/
theorem mem_publishTsdfSurfacePoints {m : TsdfMap} {p : PointXYZRGB} :
    p ∈ publishTsdfSurfacePoints m ↔
      ∃ block ∈ m.blocks, ∃ i ∈ voxelIndices m.tsdf_voxels_per_side,
        |(block.getTsdfVoxelByVoxelIndex i).distance| < surfaceDistanceThresh m ∧
          0 < (block.getTsdfVoxelByVoxelIndex i).weight ∧
          p = surfacePointOf m block i := by
  rw [publishTsdfSurfacePoints_eq]
  simp only [List.mem_flatMap, surfaceEmit]
  constructor
  · rintro ⟨block, hb, i, hi, hp⟩
    refine ⟨block, hb, i, hi, ?_⟩
    by_cases hc : |(block.getTsdfVoxelByVoxelIndex i).distance| < surfaceDistanceThresh m ∧
        (block.getTsdfVoxelByVoxelIndex i).weight > 0
    · simp [hc] at hp
      exact ⟨hc.1, hc.2, hp⟩
    · simp [hc] at hp
  · rintro ⟨block, hb, i, hi, hd, hw, hp⟩
    exact ⟨block, hb, i, hi, by simp [hd, hw, hp]⟩

/-- Lexicographic order on voxel indices: the order in which the
`x`-outer / `y`-middle / `z`-inner loops visit them. -/
def voxelIdxLt (a b : Nat × Nat × Nat) : Prop :=
  a.1 < b.1 ∨ (a.1 = b.1 ∧ (a.2.1 < b.2.1 ∨ (a.2.1 = b.2.1 ∧ a.2.2 < b.2.2)))

/-- The triple loop visits voxel indices in strictly increasing
lexicographic order. -/
theorem voxelIndices_pairwise (vps : Nat) :
    (voxelIndices vps).Pairwise voxelIdxLt := by
  unfold voxelIndices
  rw [List.pairwise_flatMap]
  refine ⟨fun x hx => ?_, ?_⟩
  · rw [List.pairwise_flatMap]
    refine ⟨fun y hy => ?_, ?_⟩
    · rw [List.pairwise_map]
      exact (List.pairwise_lt_range vps).imp fun h => Or.inr ⟨rfl, Or.inr ⟨rfl, h⟩⟩
    · refine (List.pairwise_lt_range vps).imp ?_
      intro y y' h p hp q hq
      simp only [List.mem_map, List.mem_range] at hp hq
      obtain ⟨z, _, rfl⟩ := hp
      obtain ⟨z', _, rfl⟩ := hq
      exact Or.inr ⟨rfl, Or.inl h⟩
  · refine (List.pairwise_lt_range vps).imp ?_
    intro x x' h p hp q hq
    simp only [List.mem_flatMap, List.mem_map, List.mem_range] at hp hq
    obtain ⟨y, _, z, _, rfl⟩ := hp
    obtain ⟨y', _, z', _, rfl⟩ := hq
    exact Or.inl h

/-- The triple loop visits each voxel index once. -/
theorem voxelIndices_nodup (vps : Nat) : (voxelIndices vps).Nodup :=
  (voxelIndices_pairwise vps).imp fun h => by
    intro he
    subst he
    rcases h with h | ⟨_, h | ⟨_, h⟩⟩ <;> omega

/-- One scalar component of coordinate reconstruction is injective in
(block coordinate, voxel index): with `voxel_size ≠ 0` and both indices
inside the block, equal world components force equal block coordinates and
equal indices. -/
theorem coord_component_inj {vs : ℚ} (hvs : vs ≠ 0) {vps : Nat} {bi bi' : ℤ}
    {k k' : Nat} (hk : k < vps) (hk' : k' < vps)
    (h : (bi : ℚ) * (vps * vs) + k * vs = (bi' : ℚ) * (vps * vs) + k' * vs) :
    bi = bi' ∧ k = k' := by
  have h2 : ((bi * vps + k : ℤ) : ℚ) * vs = ((bi' * vps + k' : ℤ) : ℚ) * vs := by
    push_cast
    ring_nf
    ring_nf at h
    linarith
  have key : (bi * vps + k : ℤ) = bi' * vps + k' := by
    exact_mod_cast mul_right_cancel₀ hvs h2
  have h3 : (bi - bi') * vps = (k' : ℤ) - k := by linear_combination key
  have hvpsZ : 0 < (vps : ℤ) := by omega
  have hc : bi - bi' = 0 := by
    rcases lt_trichotomy (bi - bi') 0 with hlt | heq | hgt
    · exfalso
      have hmul : (bi - bi') * vps ≤ -1 * vps :=
        mul_le_mul_of_nonneg_right (by omega) (by omega)
      omega
    · exact heq
    · exfalso
      have hmul : 1 * (vps : ℤ) ≤ (bi - bi') * vps :=
        mul_le_mul_of_nonneg_right (by omega) (by omega)
      omega
  constructor
  · omega
  · rw [hc, zero_mul] at h3
    omega

/-- Coordinate reconstruction is injective across all (block, voxel-index)
pairs of one store, given nonzero voxel size. -/
theorem coords_inj {m : TsdfMap} (hvs : m.tsdf_voxel_size ≠ 0)
    {b b' : TsdfBlock} {i i' : Nat × Nat × Nat}
    (hi : i ∈ voxelIndices m.tsdf_voxels_per_side)
    (hi' : i' ∈ voxelIndices m.tsdf_voxels_per_side)
    (h : b.getCoordinatesOfTsdfVoxelByVoxelIndex m i =
      b'.getCoordinatesOfTsdfVoxelByVoxelIndex m i') :
    b.block_index = b'.block_index ∧ i = i' := by
  obtain ⟨hx, hy, hz⟩ := mem_voxelIndices.mp hi
  obtain ⟨hx', hy', hz'⟩ := mem_voxelIndices.mp hi'
  simp only [TsdfBlock.getCoordinatesOfTsdfVoxelByVoxelIndex, blockOrigin,
    Prod.mk.injEq] at h
  obtain ⟨e1, e2, e3⟩ := h
  obtain ⟨eb1, ek1⟩ := coord_component_inj hvs hx hx' e1
  obtain ⟨eb2, ek2⟩ := coord_component_inj hvs hy hy' e2
  obtain ⟨eb3, ek3⟩ := coord_component_inj hvs hz hz' e3
  exact ⟨Prod.ext eb1 (Prod.ext eb2 eb3), Prod.ext ek1 (Prod.ext ek2 ek3)⟩

/-- Per-voxel shape of the dense loop body. -/
theorem mem_denseEmit {m : TsdfMap} {b : TsdfBlock} {i : Nat × Nat × Nat}
    {p : PointXYZI} :
    p ∈ denseEmit m b i ↔
      0 < (b.getTsdfVoxelByVoxelIndex i).weight ∧ p = densePointOf m b i := by
  simp only [denseEmit, gt_iff_lt]
  split
  · rename_i h
    simp [h]
  · rename_i h
    simp [h]

/-- Per-voxel shape of the surface loop body. -/
theorem mem_surfaceEmit {m : TsdfMap} {b : TsdfBlock} {i : Nat × Nat × Nat}
    {p : PointXYZRGB} :
    p ∈ surfaceEmit m b i ↔
      |(b.getTsdfVoxelByVoxelIndex i).distance| < surfaceDistanceThresh m ∧
        0 < (b.getTsdfVoxelByVoxelIndex i).weight ∧ p = surfacePointOf m b i := by
  simp only [surfaceEmit, gt_iff_lt]
  split
  · rename_i h
    simp [h.1, h.2]
  · rename_i h
    rw [not_and_or] at h
    rcases h with h | h <;> simp [h]

/-- Distinct (block coordinate, voxel index) pairs give distinct dense
points. -/
theorem densePointOf_inj {m : TsdfMap} (hvs : m.tsdf_voxel_size ≠ 0)
    {b b' : TsdfBlock} {i i' : Nat × Nat × Nat}
    (hi : i ∈ voxelIndices m.tsdf_voxels_per_side)
    (hi' : i' ∈ voxelIndices m.tsdf_voxels_per_side)
    (h : densePointOf m b i = densePointOf m b' i') :
    b.block_index = b'.block_index ∧ i = i' := by
  have hc : b.getCoordinatesOfTsdfVoxelByVoxelIndex m i =
      b'.getCoordinatesOfTsdfVoxelByVoxelIndex m i' := by
    simp only [densePointOf, PointXYZI.mk.injEq] at h
    exact Prod.ext h.1 (Prod.ext h.2.1 h.2.2.1)
  exact coords_inj hvs hi hi' hc

/-- Distinct (block coordinate, voxel index) pairs give distinct surface
points. -/
theorem surfacePointOf_inj {m : TsdfMap} (hvs : m.tsdf_voxel_size ≠ 0)
    {b b' : TsdfBlock} {i i' : Nat × Nat × Nat}
    (hi : i ∈ voxelIndices m.tsdf_voxels_per_side)
    (hi' : i' ∈ voxelIndices m.tsdf_voxels_per_side)
    (h : surfacePointOf m b i = surfacePointOf m b' i') :
    b.block_index = b'.block_index ∧ i = i' := by
  have hc : b.getCoordinatesOfTsdfVoxelByVoxelIndex m i =
      b'.getCoordinatesOfTsdfVoxelByVoxelIndex m i' := by
    simp only [surfacePointOf, PointXYZRGB.mk.injEq] at h
    exact Prod.ext h.1 (Prod.ext h.2.1 h.2.2.1)
  exact coords_inj hvs hi hi' hc

/-- Under the store invariants (nonzero voxel size, one block per block
coordinate) the dense output has no duplicate points. -/
theorem publishAllUpdatedTsdfVoxels_nodup (m : TsdfMap)
    (hvs : m.tsdf_voxel_size ≠ 0)
    (hnd : (m.blocks.map TsdfBlock.block_index).Nodup) :
    (publishAllUpdatedTsdfVoxels m).Nodup := by
  rw [publishAllUpdatedTsdfVoxels_eq, List.nodup_flatMap]
  constructor
  · intro block hb
    rw [List.nodup_flatMap]
    constructor
    · intro i hi
      simp only [denseEmit]
      split <;> simp
    · refine (voxelIndices_nodup m.tsdf_voxels_per_side).imp_of_mem ?_
      intro i i' hi hi' hne p hp hp'
      rw [mem_denseEmit] at hp hp'
      exact hne (densePointOf_inj hvs hi hi' (hp.2.symm.trans hp'.2)).2
  · have hpw : m.blocks.Pairwise fun b b' => b.block_index ≠ b'.block_index :=
      List.pairwise_map.mp hnd
    refine hpw.imp ?_
    intro b b' hne p hp hp'
    rw [List.mem_flatMap] at hp hp'
    obtain ⟨i, hi, hpi⟩ := hp
    obtain ⟨i', hi', hpi'⟩ := hp'
    rw [mem_denseEmit] at hpi hpi'
    exact hne (densePointOf_inj hvs hi hi' (hpi.2.symm.trans hpi'.2)).1

/-- The single build loop is a pair of maps over the same cloud. -/
theorem buildPointsAndColors_eq (cloud : List PclPointXYZRGB) :
    buildPointsAndColors cloud =
      (cloud.map fun p => (p.x.toRat, p.y.toRat, p.z.toRat),
       cloud.map fun p => ({ r := p.r, g := p.g, b := p.b, a := p.a } : Color)) := by
  unfold buildPointsAndColors
  have h : ∀ (l : List PclPointXYZRGB) (acc : List (ℚ × ℚ × ℚ) × List Color),
      l.foldl
        (fun acc p =>
          (acc.1 ++ [(p.x.toRat, p.y.toRat, p.z.toRat)],
           acc.2 ++ [{ r := p.r, g := p.g, b := p.b, a := p.a }]))
        acc =
      (acc.1 ++ l.map fun p => (p.x.toRat, p.y.toRat, p.z.toRat),
       acc.2 ++ l.map fun p => ({ r := p.r, g := p.g, b := p.b, a := p.a } : Color)) := by
    intro l
    induction l with
    | nil => intro acc; simp
    | cons p l ih => intro acc; simp [ih]
  simpa using h cloud ([], [])

/-- Every survivor of the NaN filter has NaN-free coordinates. -/
theorem removeNaN_no_nan {cloud : List PclPointXYZRGB} {q : PclPointXYZRGB}
    (hq : q ∈ removeNaNFromPointCloud cloud) :
    q.x.isNaN = false ∧ q.y.isNaN = false ∧ q.z.isNaN = false := by
  have h := (List.mem_filter.mp hq).2
  simp only [Bool.not_eq_true', Bool.or_eq_false_iff] at h
  exact ⟨h.1.1, h.1.2, h.2⟩

end Lemmas

/-- C1: surface extraction emits a point for a voxel iff the voxel's
weight is `> 0` and `|distance| < 0.75 * voxel_size` (strict, so a voxel
exactly at the threshold is excluded — second conjunct), and the emitted
point carries the voxel's world coordinate and its `r`, `g`, `b` color
channels. -/
theorem C1_surface_emission_iff (m : TsdfMap) :
    (∀ p : PointXYZRGB, p ∈ publishTsdfSurfacePoints m ↔
      ∃ block ∈ m.blocks, ∃ i ∈ voxelIndices m.tsdf_voxels_per_side,
        0 < (block.getTsdfVoxelByVoxelIndex i).weight ∧
        |(block.getTsdfVoxelByVoxelIndex i).distance| < m.getTsdfVoxelSize * (3 / 4) ∧
        p = surfacePointOf m block i) ∧
    (∀ (block : TsdfBlock) (i : Nat × Nat × Nat),
      |(block.getTsdfVoxelByVoxelIndex i).distance| = m.getTsdfVoxelSize * (3 / 4) →
        surfaceEmit m block i = []) := by
  constructor
  · intro p
    rw [mem_publishTsdfSurfacePoints]
    constructor
    · rintro ⟨b, hb, i, hi, hd, hw, hp⟩
      exact ⟨b, hb, i, hi, hw, hd, hp⟩
    · rintro ⟨b, hb, i, hi, hw, hd, hp⟩
      exact ⟨b, hb, i, hi, hd, hw, hp⟩
  · intro block i h
    simp [surfaceEmit, surfaceDistanceThresh, h]

/-- C1 witness: on the Scenario B store the voxel at index `(0,0,0)` has
weight `1` and `|0.01| < 0.015`, so its point is emitted. -/
theorem C1_surface_emission_iff_witness :
    ({ x := 0, y := 0, z := 0, r := 255, g := 0, b := 0 } : PointXYZRGB) ∈
      publishTsdfSurfacePoints scenarioBMap :=
  ((C1_surface_emission_iff scenarioBMap).1 _).mpr
    ⟨scenarioBBlock, by simp [scenarioBMap], (0, 0, 0),
      mem_voxelIndices.mpr (by simp [scenarioBMap]),
      by norm_num [scenarioBBlock, TsdfBlock.getTsdfVoxelByVoxelIndex],
      by rw [abs_lt]
         norm_num [scenarioBBlock, scenarioBMap, TsdfBlock.getTsdfVoxelByVoxelIndex,
           TsdfMap.getTsdfVoxelSize],
      by norm_num [surfacePointOf, scenarioBBlock, scenarioBMap,
        TsdfBlock.getCoordinatesOfTsdfVoxelByVoxelIndex, blockOrigin,
        TsdfBlock.getTsdfVoxelByVoxelIndex]⟩

/-- C2: under the store invariants (positive voxel size, one block per
block coordinate), every voxel with `weight > 0` is emitted exactly once
by the dense traversal, its point's coordinate is
`block_origin + voxel_index * voxel_size` and its `intensity` is the
stored distance; a voxel with `weight == 0` is emitted by neither
traversal. -/
theorem C2_dense_exactly_once (m : TsdfMap)
    (hvs : 0 < m.tsdf_voxel_size)
    (hnd : (m.blocks.map TsdfBlock.block_index).Nodup) :
    (∀ block ∈ m.blocks, ∀ i ∈ voxelIndices m.tsdf_voxels_per_side,
      0 < (block.getTsdfVoxelByVoxelIndex i).weight →
        (publishAllUpdatedTsdfVoxels m).count (densePointOf m block i) = 1 ∧
        densePointOf m block i =
          { x := (blockOrigin m block).1 + i.1 * m.tsdf_voxel_size,
            y := (blockOrigin m block).2.1 + i.2.1 * m.tsdf_voxel_size,
            z := (blockOrigin m block).2.2 + i.2.2 * m.tsdf_voxel_size,
            intensity := (block.getTsdfVoxelByVoxelIndex i).distance }) ∧
    (∀ block ∈ m.blocks, ∀ i ∈ voxelIndices m.tsdf_voxels_per_side,
      (block.getTsdfVoxelByVoxelIndex i).weight = 0 →
        densePointOf m block i ∉ publishAllUpdatedTsdfVoxels m ∧
        surfacePointOf m block i ∉ publishTsdfSurfacePoints m) := by
  have hvs' : m.tsdf_voxel_size ≠ 0 := ne_of_gt hvs
  have hinj := List.inj_on_of_nodup_map hnd
  constructor
  · intro block hb i hi hw
    constructor
    · exact List.count_eq_one_of_mem
        (publishAllUpdatedTsdfVoxels_nodup m hvs' hnd)
        (mem_publishAllUpdatedTsdfVoxels.mpr ⟨block, hb, i, hi, hw, rfl⟩)
    · rfl
  · intro block hb i hi hw
    constructor
    · intro hmem
      obtain ⟨b', hb', i', hi', hw', hp⟩ := mem_publishAllUpdatedTsdfVoxels.mp hmem
      obtain ⟨hbi, hii⟩ := densePointOf_inj hvs' hi hi' hp
      have hbb : block = b' := hinj hb hb' hbi
      rw [← hbb, ← hii] at hw'
      rw [hw] at hw'
      exact lt_irrefl 0 hw'
    · intro hmem
      obtain ⟨b', hb', i', hi', _, hw', hp⟩ := mem_publishTsdfSurfacePoints.mp hmem
      obtain ⟨hbi, hii⟩ := surfacePointOf_inj hvs' hi hi' hp
      have hbb : block = b' := hinj hb hb' hbi
      rw [← hbb, ← hii] at hw'
      rw [hw] at hw'
      exact lt_irrefl 0 hw'

/-- C2 witness: on the Scenario B store the observed voxel's dense point
is counted exactly once. -/
theorem C2_dense_exactly_once_witness :
    (publishAllUpdatedTsdfVoxels scenarioBMap).count
      (densePointOf scenarioBMap scenarioBBlock (0, 0, 0)) = 1 :=
  ((C2_dense_exactly_once scenarioBMap (by norm_num [scenarioBMap])
      (by simp [scenarioBMap])).1 scenarioBBlock (by simp [scenarioBMap])
      (0, 0, 0) (mem_voxelIndices.mpr (by simp [scenarioBMap]))
      (by norm_num [scenarioBBlock, TsdfBlock.getTsdfVoxelByVoxelIndex])).1

/-- C3 counterexample: on the freshly built store both outputs are empty,
so the surface voxel set is *not* a strict subset of the dense voxel set
(the two sets are equal). -/
theorem C3_strict_subset_counterexample :
    ¬ ({c | c ∈ surfaceCoords initialMap} ⊂ {c | c ∈ denseCoords initialMap}) := by
  intro h
  obtain ⟨c, hc, -⟩ := Set.exists_of_ssubset h
  have hd : publishAllUpdatedTsdfVoxels initialMap = [] := rfl
  simp [denseCoords, hd] at hc

/-- C3 (amended): the surface voxel set is a subset (not necessarily
strict) of the dense voxel set, and every emitted surface point comes
from a voxel with `|distance| < threshold`. -/
theorem C3_surface_subset_dense (m : TsdfMap) :
    {c | c ∈ surfaceCoords m} ⊆ {c | c ∈ denseCoords m} ∧
    ∀ p ∈ publishTsdfSurfacePoints m,
      ∃ block ∈ m.blocks, ∃ i ∈ voxelIndices m.tsdf_voxels_per_side,
        p = surfacePointOf m block i ∧
        |(block.getTsdfVoxelByVoxelIndex i).distance| < surfaceDistanceThresh m := by
  constructor
  · intro c hc
    simp only [Set.mem_setOf_eq, surfaceCoords, denseCoords, List.mem_map] at hc ⊢
    obtain ⟨p, hp, rfl⟩ := hc
    obtain ⟨b, hb, i, hi, hd, hw, rfl⟩ := mem_publishTsdfSurfacePoints.mp hp
    exact ⟨densePointOf m b i,
      mem_publishAllUpdatedTsdfVoxels.mpr ⟨b, hb, i, hi, hw, rfl⟩, rfl⟩
  · intro p hp
    obtain ⟨b, hb, i, hi, hd, hw, hpe⟩ := mem_publishTsdfSurfacePoints.mp hp
    exact ⟨b, hb, i, hi, hpe, hd⟩

/-- C3 witness: the subset relation instantiated on the Scenario B
store. -/
theorem C3_surface_subset_dense_witness :
    {c | c ∈ surfaceCoords scenarioBMap} ⊆ {c | c ∈ denseCoords scenarioBMap} :=
  (C3_surface_subset_dense scenarioBMap).1

/-- C4 counterexample: on a concrete observation whose pose lookup
succeeds, the node never publishes a dense distance-field sequence — the
`publishAllUpdatedTsdfVoxels()` call is commented out — so the cycle does
not produce two output sequences. -/
theorem C4_two_outputs_counterexample :
    ¬ ∃ (frame : String) (pc : List PointXYZI),
      Event.publishDense frame pc ∈
        (insertPointcloudWithTf trivialIntegrate (some identityTransformation)
          constructorState sampleMsg).2.2 := by
  rintro ⟨frame, pc, hmem⟩
  simp [insertPointcloudWithTf] at hmem

/-- C4 (amended): every observation whose pose lookup succeeds triggers
exactly one integration call followed by one extraction-and-publish cycle
producing a single output point sequence — the surface
`{x, y, z, r, g, b}` cloud — tagged with the world coordinate frame
identifier (the dense distance-field publish is disabled in the code). -/
theorem C4_one_integration_one_surface_publish
    (integratePointCloud :
      TsdfMap → Transformation → List (ℚ × ℚ × ℚ) → List Color → TsdfMap)
    (lookup_result : Option Transformation) (T : Transformation)
    (st : NodeState) (msg : CloudMsg)
    (h : lookup_result = some T) :
    ∃ points colors pc,
      (insertPointcloudWithTf integratePointCloud lookup_result st msg).2.2 =
        [Event.integrateCall T points colors,
         Event.publishSurface st.world_frame pc] := by
  subst h
  exact ⟨_, _, _, rfl⟩

/-- C4 witness: the amended statement instantiated on a concrete
observation. -/
theorem C4_one_integration_one_surface_publish_witness :
    ∃ points colors pc,
      (insertPointcloudWithTf trivialIntegrate (some identityTransformation)
        constructorState sampleMsg).2.2 =
        [Event.integrateCall identityTransformation points colors,
         Event.publishSurface "world" pc] :=
  C4_one_integration_one_surface_publish trivialIntegrate
    (some identityTransformation) identityTransformation constructorState
    sampleMsg rfl

/-- C5: when `lookupTransform` fails (no transform resolvable even via
the latest-transform fallback), the observation is dropped: the state
(and so the store) is unchanged, the message is untouched, and no
integration or publish event happens; the call returns normally, so
subsequent observations are processed from the same state. -/
theorem C5_missing_transform_drops_observation
    (integratePointCloud :
      TsdfMap → Transformation → List (ℚ × ℚ × ℚ) → List Color → TsdfMap)
    (st : NodeState) (msg : CloudMsg) (canTransformAtStamp : Bool)
    (lookupAtStamp lookupLatest : Option Transformation)
    (h : lookupTransform canTransformAtStamp lookupAtStamp lookupLatest = none) :
    insertPointcloudWithTf integratePointCloud
      (lookupTransform canTransformAtStamp lookupAtStamp lookupLatest) st msg =
      (st, msg, []) := by
  rw [h]
  rfl

/-- C5 witness: a concrete failed lookup (exact-time transform exists per
`canTransform` but the lookup then throws) drops the observation. -/
theorem C5_missing_transform_drops_observation_witness :
    insertPointcloudWithTf trivialIntegrate
      (lookupTransform true none (some identityTransformation))
      constructorState sampleMsg = (constructorState, sampleMsg, []) :=
  C5_missing_transform_drops_observation trivialIntegrate constructorState
    sampleMsg true none (some identityTransformation) rfl

/-- C6: within one extraction call the output is the concatenation, in
block-enumeration order, of the per-block emissions taken in voxel-index
order, and the voxel-index order is the strict lexicographic order of the
triple loop; both outputs are fixed functions of the store, hence
deterministic within the call. -/
theorem C6_output_ordering (m : TsdfMap) :
    publishAllUpdatedTsdfVoxels m =
      (m.blocks.flatMap fun block =>
        (voxelIndices m.tsdf_voxels_per_side).flatMap (denseEmit m block)) ∧
    publishTsdfSurfacePoints m =
      (m.blocks.flatMap fun block =>
        (voxelIndices m.tsdf_voxels_per_side).flatMap (surfaceEmit m block)) ∧
    (voxelIndices m.tsdf_voxels_per_side).Pairwise voxelIdxLt :=
  ⟨publishAllUpdatedTsdfVoxels_eq m, publishTsdfSurfacePoints_eq m,
    voxelIndices_pairwise m.tsdf_voxels_per_side⟩

/-- C7: both extraction steps leave the node state (and so every voxel of
the store) unchanged, and running either twice with no intervening
integration publishes identical point sequences. -/
theorem C7_extraction_pure_idempotent (st : NodeState) :
    (publishAllUpdatedTsdfVoxelsStep st).1 = st ∧
    (publishTsdfSurfacePointsStep st).1 = st ∧
    (publishAllUpdatedTsdfVoxelsStep ((publishAllUpdatedTsdfVoxelsStep st).1)).2 =
      (publishAllUpdatedTsdfVoxelsStep st).2 ∧
    (publishTsdfSurfacePointsStep ((publishTsdfSurfacePointsStep st).1)).2 =
      (publishTsdfSurfacePointsStep st).2 :=
  ⟨rfl, rfl, rfl, rfl⟩

/-- C8: for every integration call the node makes, the point and color
sequences have equal length, both were built in one loop over the same
NaN-filtered cloud, and every point feeding them has NaN-free
coordinates. -/
theorem C8_integrator_precondition
    (integratePointCloud :
      TsdfMap → Transformation → List (ℚ × ℚ × ℚ) → List Color → TsdfMap)
    (lookup_result : Option Transformation) (st : NodeState) (msg : CloudMsg)
    {T : Transformation} {points : List (ℚ × ℚ × ℚ)} {colors : List Color}
    (h : Event.integrateCall T points colors ∈
      (insertPointcloudWithTf integratePointCloud lookup_result st msg).2.2) :
    points.length = colors.length ∧
    points = (removeNaNFromPointCloud msg.points).map
      (fun p => (p.x.toRat, p.y.toRat, p.z.toRat)) ∧
    ∀ q ∈ removeNaNFromPointCloud msg.points,
      q.x.isNaN = false ∧ q.y.isNaN = false ∧ q.z.isNaN = false := by
  match lookup_result, h with
  | none, h =>
    simp [insertPointcloudWithTf] at h
  | some T', h =>
    simp only [insertPointcloudWithTf, List.mem_cons, List.mem_singleton] at h
    rcases h with h | h | h
    · rw [Event.integrateCall.injEq] at h
      obtain ⟨-, hp, hc⟩ := h
      rw [buildPointsAndColors_eq] at hp hc
      refine ⟨?_, hp, fun q hq => removeNaN_no_nan hq⟩
      rw [hp, hc]
      simp
    · exact absurd h (by simp)
    · exact absurd h (by simp)

/-- C8 witness: the concrete observation's integration call receives one
point and one color. -/
theorem C8_integrator_precondition_witness :
    ([((1 : ℚ), (2 : ℚ), (3 : ℚ))]).length = ([⟨9, 8, 7, 255⟩] : List Color).length :=
  (C8_integrator_precondition trivialIntegrate (some identityTransformation)
    constructorState sampleMsg (List.Mem.head _)).1

/-- C9: on the successful-lookup path, `insertPointcloudWithTf` rewrites
the datatype of every incoming field named `"rgb"` to `FLOAT32` before
conversion — so the input message is not treated as read-only (on a
concrete message the returned message differs from the input). -/
theorem C9_input_msg_mutated
    (integratePointCloud :
      TsdfMap → Transformation → List (ℚ × ℚ × ℚ) → List Color → TsdfMap)
    (T : Transformation) (st : NodeState) (msg : CloudMsg) :
    ((insertPointcloudWithTf integratePointCloud (some T) st msg).2.1.fields =
      msg.fields.map fun f =>
        if f.name = "rgb" then { f with datatype := pointFieldFLOAT32 } else f) ∧
    (∀ f ∈ (insertPointcloudWithTf integratePointCloud (some T) st msg).2.1.fields,
      f.name = "rgb" → f.datatype = pointFieldFLOAT32) ∧
    (insertPointcloudWithTf trivialIntegrate (some identityTransformation)
      constructorState sampleMsg).2.1 ≠ sampleMsg := by
  refine ⟨rfl, ?_, ?_⟩
  · intro f hf hname
    simp only [insertPointcloudWithTf, fixRgbFieldDatatypes, List.mem_map] at hf
    obtain ⟨f0, -, hEq⟩ := hf
    by_cases h0 : f0.name = "rgb"
    · rw [if_pos h0] at hEq
      rw [← hEq]
    · rw [if_neg h0] at hEq
      rw [← hEq] at hname
      exact absurd hname h0
  · intro hEq
    have h7 : (insertPointcloudWithTf trivialIntegrate (some identityTransformation)
        constructorState sampleMsg).2.1.fields = [{ name := "rgb", datatype := 7 }] := rfl
    rw [hEq] at h7
    simp [sampleMsg] at h7

/-- C9 witness: the sample message's `"rgb"` field comes back with
datatype `FLOAT32`. -/
theorem C9_input_msg_mutated_witness :
    (PointField.mk "rgb" pointFieldFLOAT32).datatype = pointFieldFLOAT32 :=
  (C9_input_msg_mutated trivialIntegrate identityTransformation constructorState
    sampleMsg).2.1 ⟨"rgb", pointFieldFLOAT32⟩ (by decide) rfl

/-- C10: the constructor performs exactly one surface
extraction-and-publish over the freshly built store, which has no
allocated blocks, so the published surface cloud is empty. -/
theorem C10_constructor_publishes_empty_surface :
    constructorEvents = [Event.publishSurface "world" []] ∧
    initialMap.getNumberOfAllocatedBlocks = 0 :=
  ⟨rfl, rfl⟩

end Voxblox
